import Mathlib

/-!
Shallow embedding of `src/elevation-profiler/ElevationProfileGenerator.js`.

JavaScript numbers are modelled by exact rationals (`ℚ`); the external
collaborators consumed by the pipeline (turf `length` / `along`, the
`@mapbox/sphericalmercator` forward projection, `@mapbox/tile-cover`, and the
`get-pixels` tile fetch) are modelled as abstract function parameters bundled
in a `Collab` structure.  The module-level mutable variables
(`requiredTilesObjects`, `tilePromises`, `minKmBetweenPoints`) are threaded
explicitly as a `ModuleState` value, and the asynchronous tile fetches are
modelled by their settled outcomes (`Except`), with `Promise.all` as the
fail-fast combinator `promiseAll`.

Notes on fidelity:
* `sphericalmercator.px` at an integer zoom returns pixel coordinates rounded
  to integers (`Math.round` inside the library), so projected pixel
  coordinates are modelled as `ℤ × ℤ`.
* A JavaScript `TypeError` raised while reading a property of `undefined` /
  `null` (no matching tile, missing first coordinate, unfetched tile data) is
  modelled by the corresponding `PipelineError` constructor; the source wraps
  the whole body in `try`/`catch`/`Promise.catch` and rejects with the thrown
  error, which the `Except` monad mirrors.
* The optional `minMetersBetweenPoints` argument distinguishes JavaScript
  `undefined` (auto spacing) from `null` (no minimum): it is modelled as
  `Option (Option ℚ)` with `none` for `undefined` and `some none` for `null`.
-/

/-- Fixed zoom level (source line 7). -/
def ZOOM_LEVEL : ℕ := 15

/-- Fixed tile size in pixels (source line 8). -/
def TILE_SIZE : ℤ := 256

/-- A geographic coordinate pair (longitude, latitude). -/
structure Coord where
  lon : ℚ
  lat : ℚ
  deriving DecidableEq

/-- A GeoJSON LineString geometry: its ordered coordinate list. -/
structure LineString where
  coords : List Coord
  deriving DecidableEq

/-- A decoded tile pixel grid, indexable by (x, y, channel) as in
`ndarray.get` used by the source on the `get-pixels` result. -/
structure PixelGrid where
  get : ℤ → ℤ → ℕ → ℕ

/-- One entry of `requiredTilesObjects` (source lines 120-131). -/
structure TileObject where
  coordinates : ℤ × ℤ × ℤ
  smCoordinates : ℤ × ℤ
  tileData : Option PixelGrid

/-- A point feature after `_addXYZCoordinatesToPointsGeoJSON`: geographic
coordinates, `distanceAlongLine` in meters, and projected pixel
coordinates `smCoordinates`. -/
structure SamplePoint where
  coordinates : Coord
  distanceAlongLine : ℚ
  smCoordinates : ℤ × ℤ
  deriving DecidableEq

/-- A point feature after `_addHeightToPointsGeoJSON`: as `SamplePoint`
plus the decoded `elevation` property (meters). -/
structure ElevatedPoint where
  coordinates : Coord
  distanceAlongLine : ℚ
  smCoordinates : ℤ × ℤ
  elevation : ℚ
  deriving DecidableEq

/-- An output feature of `_getFormattedPointsResult`: the internal
`smCoordinates` property has been stripped. -/
structure OutputFeature where
  coordinates : Coord
  distanceAlongLine : ℚ
  elevation : ℚ
  deriving DecidableEq

/-- The resolved FeatureCollection returned by the pipeline. -/
structure FeatureCollection where
  features : List OutputFeature
  deriving DecidableEq

/-- The ways one pipeline run can reject.  `fetchError` carries the
underlying error of a failed tile request; the `typeError…` constructors
model the JavaScript `TypeError`s the source can throw (reading a property
of `undefined`/`null`). -/
inductive PipelineError (ε : Type) where
  | fetchError : ε → PipelineError ε
  | typeErrorNoMatchingTile : PipelineError ε
  | typeErrorNullTileData : PipelineError ε
  | typeErrorNoCoordinates : PipelineError ε
  deriving DecidableEq

/-- Module-level mutable variables of the source (lines 9-11). -/
structure ModuleState (ε : Type) where
  requiredTilesObjects : List TileObject
  tilePromises : List (Except ε PixelGrid)
  minKmBetweenPoints : Option ℚ

/-- The external collaborators used by the source, as pure functions:
turf `length` (kilometers) and `along`, the spherical-Mercator forward
projection `px` (integer pixel coordinates at a given zoom), `tile-cover`
`tiles`, the tile fetch with its settled outcome, and `Math.cos` applied
to a latitude given in degrees. -/
structure Collab (ε : Type) where
  lengthKm : LineString → ℚ
  along : LineString → ℚ → Coord
  px : Coord → ℕ → ℤ × ℤ
  tilesCovering : LineString → ℕ → ℕ → List (ℤ × ℤ × ℤ)
  fetchTile : ℤ → ℤ → ℤ → Except ε PixelGrid
  cosDeg : ℚ → ℚ

/-- Source `_calculateHeightFromPixel` (lines 168-173): decode a three
channel pixel into an elevation in meters. -/
def calculateHeightFromPixel (pixelRGBArray : ℕ × ℕ × ℕ) : ℚ :=
  -10000 + (((pixelRGBArray.1 : ℚ) * 256 * 256 + (pixelRGBArray.2.1 : ℚ) * 256
    + (pixelRGBArray.2.2 : ℚ)) * 0.1)

/-- Source `_pointIsWithinTile` (lines 175-180): inclusive bounding-box
test in shared pixel space. -/
def pointIsWithinTile (pointSMCoordinates tileSMCoordinates : ℤ × ℤ) : Bool :=
  decide (pointSMCoordinates.1 ≥ tileSMCoordinates.1)
    && decide (pointSMCoordinates.1 ≤ tileSMCoordinates.1 + TILE_SIZE)
    && decide (pointSMCoordinates.2 ≥ tileSMCoordinates.2)
    && decide (pointSMCoordinates.2 ≤ tileSMCoordinates.2 + TILE_SIZE)

/-- The `for` loop of `_getLineStringDistancesToCheck` (lines 82-84):
`for (let i = 0; (i < numberOfPoints - 1) && (stepDistance * i < length); i++)`.
The first argument of the recursion is the loop counter `i`, the second the
remaining number of permitted iterations `numberOfPoints - 1 - i`. -/
def distancesLoop (stepDistance lineStringLength : ℚ) : ℕ → ℕ → List ℚ
  | _, 0 => []
  | i, fuel + 1 =>
    if stepDistance * (i : ℚ) < lineStringLength then
      stepDistance * (i : ℚ) :: distancesLoop stepDistance lineStringLength (i + 1) fuel
    else []

/-- The step-size computation of `_getLineStringDistancesToCheck`
(lines 76-79): `length / (numberOfPoints - 1)`, replaced by the minimum
spacing when one is in effect (`minKmBetweenPoints !== null`) and larger. -/
def effectiveStep (minKmBetweenPoints : Option ℚ) (lineStringLength : ℚ)
    (numberOfPoints : ℕ) : ℚ :=
  let stepDistance := lineStringLength / ((numberOfPoints : ℚ) - 1)
  match minKmBetweenPoints with
  | some m => if stepDistance < m then m else stepDistance
  | none => stepDistance

/-- Source `_getLineStringDistancesToCheck` (lines 74-88), with the
kilometer length of the LineString (computed there via turf `length`)
and the module variable `minKmBetweenPoints` passed explicitly. -/
def getLineStringDistancesToCheck (minKmBetweenPoints : Option ℚ)
    (lineStringLength : ℚ) (numberOfPoints : ℕ) : List ℚ :=
  distancesLoop (effectiveStep minKmBetweenPoints lineStringLength numberOfPoints)
    lineStringLength 0 (numberOfPoints - 1) ++ [lineStringLength]

/-- Source `_getPointsToCheck` (lines 90-98): materialize each distance as
a point feature via turf `along`; `distanceAlongLine` is stored in meters
(`distance * 1000`). -/
def getPointsToCheck {ε : Type} (c : Collab ε) (lineString : LineString)
    (distancesToCheck : List ℚ) : List (Coord × ℚ) :=
  distancesToCheck.map fun distance => (c.along lineString distance, distance * 1000)

/-- Source `_getLineStringPoints` (lines 68-72). -/
def getLineStringPoints {ε : Type} (c : Collab ε) (st : ModuleState ε)
    (lineString : LineString) (numberOfPoints : ℕ) : List (Coord × ℚ) :=
  getPointsToCheck c lineString
    (getLineStringDistancesToCheck st.minKmBetweenPoints (c.lengthKm lineString) numberOfPoints)

/-- Source `_addXYZCoordinatesToPointsGeoJSON` (lines 100-112): assign each
point its projected pixel coordinates `smCoordinates` at the given zoom. -/
def addXYZCoordinatesToPointsGeoJSON {ε : Type} (c : Collab ε)
    (pointsArray : List (Coord × ℚ)) (zoomLevel : ℕ) : List SamplePoint :=
  pointsArray.map fun pointGeoJSON =>
    { coordinates := pointGeoJSON.1
      distanceAlongLine := pointGeoJSON.2
      smCoordinates := c.px pointGeoJSON.1 zoomLevel }

/-- Source `_getTileArrayFromLineString` (lines 114-134): build one
`TileObject` per tile reported by `tile-cover` — with pixel origin
`(x * TILE_SIZE, y * TILE_SIZE)` and no tile data yet — and launch one
fetch per tile (its settled outcome, in tile-list order). -/
def getTileArrayFromLineString {ε : Type} (c : Collab ε) (lineString : LineString)
    (minZoom maxZoom : ℕ) : List TileObject × List (Except ε PixelGrid) :=
  let requiredTiles2DArray := c.tilesCovering lineString minZoom maxZoom
  (requiredTiles2DArray.map fun requiredTile =>
      { coordinates := requiredTile
        smCoordinates := (requiredTile.1 * TILE_SIZE, requiredTile.2.1 * TILE_SIZE)
        tileData := none },
    requiredTiles2DArray.map fun requiredTile =>
      c.fetchTile requiredTile.1 requiredTile.2.1 requiredTile.2.2)

/-- Model of `Promise.all` over settled outcomes: the values of all
promises in order, or the first rejection. -/
def promiseAll {ε α : Type} : List (Except ε α) → Except ε (List α)
  | [] => .ok []
  | x :: xs =>
    match x with
    | .error e => .error e
    | .ok v =>
      match promiseAll xs with
      | .error e => .error e
      | .ok vs => .ok (v :: vs)

/-- The effect of the resolved tile promises (source lines 136-140): the
fetch keyed by index `i` writes its pixel grid into
`requiredTilesObjects[i].tileData`. -/
def fillTileData (tiles : List TileObject) (grids : List PixelGrid) : List TileObject :=
  List.zipWith (fun t g => { t with tileData := some g }) tiles grids

/-- The per-point body of `_addHeightToPointsGeoJSON` (lines 154-165):
take the first tile whose bounding box contains the point, compute the
local offset relative to that tile's origin, and decode the pixel there.
A missing matching tile or missing tile data raises a `TypeError`. -/
def addHeightToPointGeoJSON {ε : Type} (requiredTilesObjects : List TileObject)
    (point : SamplePoint) : Except (PipelineError ε) ElevatedPoint :=
  match (requiredTilesObjects.filter fun tile =>
      pointIsWithinTile point.smCoordinates tile.smCoordinates).head? with
  | none => .error .typeErrorNoMatchingTile
  | some matchingTile =>
    let xRelativeToTile := point.smCoordinates.1 - matchingTile.smCoordinates.1
    let yRelativeToTile := point.smCoordinates.2 - matchingTile.smCoordinates.2
    match matchingTile.tileData with
    | none => .error .typeErrorNullTileData
    | some tileData =>
      .ok { coordinates := point.coordinates
            distanceAlongLine := point.distanceAlongLine
            smCoordinates := point.smCoordinates
            elevation := calculateHeightFromPixel
              (tileData.get xRelativeToTile yRelativeToTile 0,
               tileData.get xRelativeToTile yRelativeToTile 1,
               tileData.get xRelativeToTile yRelativeToTile 2) }

/-- Source `_addHeightToPointsGeoJSON` (lines 153-166): the `forEach`
stops at the first point that throws. -/
def addHeightToPointsGeoJSON {ε : Type} (requiredTilesObjects : List TileObject) :
    List SamplePoint → Except (PipelineError ε) (List ElevatedPoint)
  | [] => .ok []
  | point :: rest =>
    match (addHeightToPointGeoJSON requiredTilesObjects point : Except (PipelineError ε) ElevatedPoint) with
    | .error e => .error e
    | .ok e =>
      match addHeightToPointsGeoJSON requiredTilesObjects rest with
      | .error e2 => .error e2
      | .ok es => .ok (e :: es)

/-- Source `_getFormattedPointsResult` (lines 182-195): wrap the points in
a FeatureCollection, dropping the internal `smCoordinates` property. -/
def getFormattedPointsResult (points : List ElevatedPoint) : FeatureCollection :=
  { features := points.map fun point =>
      { coordinates := point.coordinates
        distanceAlongLine := point.distanceAlongLine
        elevation := point.elevation } }

/-- Source `_getPixelDistanceAtLatitudeInMeters` (lines 197-200): the
approximate ground size in meters of one pixel at `ZOOM_LEVEL`;
`cosDeg` stands for `Math.cos(latitude * Math.PI / 180)`. -/
def getPixelDistanceAtLatitudeInMeters (cosDeg : ℚ → ℚ) (latitude : ℚ) : ℚ :=
  40075016.686 * (cosDeg latitude / 2 ^ (ZOOM_LEVEL + 8))

/-- Source lines 42-43: both module accumulators are reset to `[]` at the
start of every invocation. -/
def resetAccumulators {ε : Type} (prior : ModuleState ε) : ModuleState ε :=
  { prior with requiredTilesObjects := [], tilePromises := [] }

/-- Source lines 44-50: resolve the module variable `minKmBetweenPoints`
from the optional argument.  `none` models the JavaScript `undefined`
default (auto spacing from the pixel ground size at the path's first
latitude — reading `coordinates[0][1]` of an empty coordinate list throws),
`some none` models an explicit `null` (no minimum), and `some (some m)`
an explicit minimum of `m` meters. -/
def resolveMinKm {ε : Type} (c : Collab ε) (lineString : LineString)
    (minMetersBetweenPoints : Option (Option ℚ)) :
    Except (PipelineError ε) (Option ℚ) :=
  match minMetersBetweenPoints with
  | none =>
    match lineString.coords.head? with
    | none => .error .typeErrorNoCoordinates
    | some c0 =>
      .ok (some ((⌈getPixelDistanceAtLatitudeInMeters c.cosDeg c0.lat * 10⌉ : ℚ) / 10000))
  | some none => .ok none
  | some (some m) => .ok (some (m / 1000))

/-- Source lines 52-61, after the module state has been set up: plan and
materialize the sample points, build the tile array and launch the
fetches, project the points, await all fetches (fail-fast), then decode
elevations and format the result. -/
def runAfterMinKm {ε : Type} (c : Collab ε) (st1 : ModuleState ε)
    (lineString : LineString) (numberOfPoints : ℕ) :
    Except (PipelineError ε) FeatureCollection × ModuleState ε :=
  let pointsToCheck := getLineStringPoints c st1 lineString numberOfPoints
  let tileArray := getTileArrayFromLineString c lineString ZOOM_LEVEL ZOOM_LEVEL
  let newRequiredTiles := st1.requiredTilesObjects ++ tileArray.1
  let newTilePromises := st1.tilePromises ++ tileArray.2
  let st2 : ModuleState ε :=
    { st1 with
      requiredTilesObjects := newRequiredTiles
      tilePromises := newTilePromises }
  let pointsWithXYZ := addXYZCoordinatesToPointsGeoJSON c pointsToCheck ZOOM_LEVEL
  match promiseAll newTilePromises with
  | .error e => (.error (.fetchError e), st2)
  | .ok tileDatas =>
    let st3 : ModuleState ε :=
      { st2 with requiredTilesObjects := fillTileData newRequiredTiles tileDatas }
    match addHeightToPointsGeoJSON (fillTileData newRequiredTiles tileDatas) pointsWithXYZ with
    | .error e => (.error e, st3)
    | .ok pointsWithHeight => (.ok (getFormattedPointsResult pointsWithHeight), st3)

/-- Source `getLineStringElevationPoints` (lines 36-66).  Takes the module
state left behind by the previous invocation and returns the settled
result of the promise together with the module state after the run. -/
def getLineStringElevationPoints {ε : Type} (c : Collab ε) (prior : ModuleState ε)
    (lineString : LineString) (numberOfPoints : ℕ)
    (minMetersBetweenPoints : Option (Option ℚ)) :
    Except (PipelineError ε) FeatureCollection × ModuleState ε :=
  let st0 := resetAccumulators prior
  match resolveMinKm c lineString minMetersBetweenPoints with
  | .error e => (.error e, st0)
  | .ok mk => runAfterMinKm c { st0 with minKmBetweenPoints := mk } lineString numberOfPoints

/-- Modelled from the spec's wording of the Sample Planner algorithm
(section 4.1): the distances `0, step, 2*step, …` emitted while the
distance stays strictly below the path length and fewer than
`numberOfPoints - 1` have been emitted, with the path length appended as
the final distance. -/
def specPlannedDistances (lineStringLength : ℚ) (numberOfPoints : ℕ)
    (minSpacing : Option ℚ) : List ℚ :=
  let step := effectiveStep minSpacing lineStringLength numberOfPoints
  (((List.range (numberOfPoints - 1)).map fun i : ℕ => step * (i : ℚ)).takeWhile
      fun d => decide (d < lineStringLength)) ++ [lineStringLength]

/-- Modelled from the spec's auto-spacing formula (section 4.1): the pixel
ground size in meters, scaled by 10, rounded up with the ceiling, at a
granularity of 0.1 meters. -/
def specAutoMinSpacingMeters (pixelDistanceMeters : ℚ) : ℚ :=
  (⌈pixelDistanceMeters * 10⌉ : ℚ) / 10

/-! ## Concrete fixtures used by witnesses and counterexamples -/

/-- Tile and point fixtures used by the witnesses below. -/
def gridW : PixelGrid := { get := fun _ _ _ => 3 }

def tileW : TileObject :=
  { coordinates := (0, 0, 15), smCoordinates := (0, 0), tileData := some gridW }

def pointW : SamplePoint :=
  { coordinates := ⟨0, 0⟩, distanceAlongLine := 0, smCoordinates := (5, 7) }

/-- A collaborator assignment whose cosine is `1 / 2`, used by the
auto-spacing witness. -/
def collabW7 : Collab Unit :=
  { lengthKm := fun _ => 1
    along := fun _ _ => ⟨0, 0⟩
    px := fun _ _ => (0, 0)
    tilesCovering := fun _ _ _ => []
    fetchTile := fun _ _ _ => .error ()
    cosDeg := fun _ => 1 / 2 }

def lineW7 : LineString := { coords := [⟨0, 60⟩] }

/-- A collaborator assignment with two required tiles whose second fetch
fails with error code `7`, used by the fail-fast witness. -/
def collabW4 : Collab ℕ :=
  { lengthKm := fun _ => 1
    along := fun _ _ => ⟨0, 0⟩
    px := fun _ _ => (0, 0)
    tilesCovering := fun _ _ _ => [(0, 0, 15), (1, 0, 15)]
    fetchTile := fun x _ _ => if x = 0 then .ok gridW else .error 7
    cosDeg := fun _ => 1 }

def lineW4 : LineString := { coords := [⟨0, 0⟩, ⟨1, 0⟩] }

def stateW : ModuleState ℕ :=
  { requiredTilesObjects := [tileW], tilePromises := [.error 3], minKmBetweenPoints := some 9 }

/-- A collaborator assignment whose single fetched tile (origin
`(2560, 2560)`) does not contain the projected point `(0, 0)`, used by
the coverage-mismatch witness. -/
def collabW8 : Collab ℕ :=
  { lengthKm := fun _ => 1
    along := fun _ _ => ⟨0, 0⟩
    px := fun _ _ => (0, 0)
    tilesCovering := fun _ _ _ => [(10, 10, 15)]
    fetchTile := fun _ _ _ => .ok gridW
    cosDeg := fun _ => 1 }

/-- A collaborator assignment for a zero-length two-coordinate path whose
single tile covers the projected point, used by the C9 counterexample: the
run completes and produces an output collection. -/
def collabW9 : Collab Unit :=
  { lengthKm := fun _ => 0
    along := fun _ _ => ⟨0, 0⟩
    px := fun _ _ => (0, 0)
    tilesCovering := fun _ _ _ => [(0, 0, 15)]
    fetchTile := fun _ _ _ => .ok { get := fun _ _ _ => 0 }
    cosDeg := fun _ => 1 }

/-- A degenerate path: zero length, two identical coordinates. -/
def lineW9 : LineString := { coords := [⟨0, 0⟩, ⟨0, 0⟩] }

def stateW9 : ModuleState Unit :=
  { requiredTilesObjects := [], tilePromises := [], minKmBetweenPoints := none }

/-- A path with an empty coordinate list (used by the amended C9). -/
def lineEmpty : LineString := { coords := [] }

/-- The first sample point produced by `collabW8` on `lineW4`: projected
to pixel `(0, 0)`, outside the only fetched tile. -/
def pointW8 : SamplePoint :=
  { coordinates := ⟨0, 0⟩, distanceAlongLine := 0, smCoordinates := (0, 0) }

/-! ## Helper lemmas -/

/-- The head of a filtered list is the first element satisfying the
predicate. -/
theorem head?_filter_eq_find? {α : Type} (p : α → Bool) :
    ∀ l : List α, (l.filter p).head? = l.find? p := by
  intro l
  induction l with
  | nil => rfl
  | cons a t ih =>
    rw [List.filter_cons, List.find?_cons]
    cases h : p a
    · simp [h, ih]
    · simp [h]

/-- The distances loop is the longest prefix of `0, step, 2*step, …`
(truncated at `numberOfPoints - 1` entries) whose entries stay strictly
below the path length. -/
theorem distancesLoop_eq_takeWhile (stepDistance lineStringLength : ℚ) :
    ∀ (fuel i : ℕ),
      distancesLoop stepDistance lineStringLength i fuel
        = ((List.range' i fuel).map fun j : ℕ => stepDistance * (j : ℚ)).takeWhile
            fun d => decide (d < lineStringLength) := by
  intro fuel
  induction fuel with
  | zero => intro i; rfl
  | succ n ih =>
    intro i
    rw [List.range'_succ]
    simp only [List.map_cons, List.takeWhile_cons, distancesLoop]
    by_cases h : stepDistance * (i : ℚ) < lineStringLength
    · simp [h, ih (i + 1)]
    · simp [h]

/-- The source planner agrees with the spec-worded sequence. -/
theorem getLineStringDistancesToCheck_eq_spec (minSpacing : Option ℚ)
    (lineStringLength : ℚ) (numberOfPoints : ℕ) :
    getLineStringDistancesToCheck minSpacing lineStringLength numberOfPoints
      = specPlannedDistances lineStringLength numberOfPoints minSpacing := by
  unfold getLineStringDistancesToCheck specPlannedDistances
  rw [List.range_eq_range', distancesLoop_eq_takeWhile]

/-- The effective step of the planner is non-negative for a non-negative
path length and at least two requested points. -/
theorem effectiveStep_nonneg (minSpacing : Option ℚ) (lineStringLength : ℚ)
    (numberOfPoints : ℕ) (hL : 0 ≤ lineStringLength) (hn : 2 ≤ numberOfPoints) :
    0 ≤ effectiveStep minSpacing lineStringLength numberOfPoints := by
  have hden : (0 : ℚ) < (numberOfPoints : ℚ) - 1 := by
    have : (2 : ℚ) ≤ (numberOfPoints : ℚ) := by exact_mod_cast hn
    linarith
  have hstep0 : 0 ≤ lineStringLength / ((numberOfPoints : ℚ) - 1) :=
    div_nonneg hL (le_of_lt hden)
  unfold effectiveStep
  cases minSpacing with
  | none => exact hstep0
  | some m =>
    by_cases h : lineStringLength / ((numberOfPoints : ℚ) - 1) < m
    · simp only [h, if_true]
      exact le_of_lt (lt_of_le_of_lt hstep0 h)
    · simpa [h] using hstep0

/-! ## Claims -/

/-- C1: for every path length, point count and spacing policy, the sample
planner emits exactly the spec's distance sequence — the effective step
`L / (n-1)` (replaced by the minimum spacing when one is in effect and
larger), the multiples of the step emitted while strictly below `L` and
fewer than `n - 1` long, then `L` appended; in particular the two spec
scenarios `[0, 250, 500, 750, 1000]` and `[0, 60, 100]` (the latter both
with meter-valued inputs and through the kilometer-valued pipeline
scaled back to meters). -/
theorem claim1_sample_planner_sequence :
    (∀ (minSpacing : Option ℚ) (lineStringLength : ℚ) (numberOfPoints : ℕ),
      getLineStringDistancesToCheck minSpacing lineStringLength numberOfPoints
        = specPlannedDistances lineStringLength numberOfPoints minSpacing)
    ∧ getLineStringDistancesToCheck none 1000 5 = [0, 250, 500, 750, 1000]
    ∧ getLineStringDistancesToCheck (some 60) 100 50 = [0, 60, 100]
    ∧ (getLineStringDistancesToCheck (some (60 / 1000)) (100 / 1000) 50).map
        (fun d => d * 1000) = [0, 60, 100] := by
  refine ⟨getLineStringDistancesToCheck_eq_spec, ?_, ?_, ?_⟩ <;>
    norm_num [getLineStringDistancesToCheck, effectiveStep, distancesLoop]

/-- C2: for every non-negative path length, at least two requested points
and any spacing policy, the emitted distances are non-negative,
non-decreasing, bounded by the path length, and end exactly at the path
length. -/
theorem claim2_distances_monotone_bounded (minSpacing : Option ℚ)
    (lineStringLength : ℚ) (numberOfPoints : ℕ)
    (hL : 0 ≤ lineStringLength) (hn : 2 ≤ numberOfPoints) :
    (getLineStringDistancesToCheck minSpacing lineStringLength numberOfPoints).Sorted (· ≤ ·)
    ∧ (∀ d ∈ getLineStringDistancesToCheck minSpacing lineStringLength numberOfPoints,
        0 ≤ d ∧ d ≤ lineStringLength)
    ∧ (getLineStringDistancesToCheck minSpacing lineStringLength numberOfPoints).getLast?
        = some lineStringLength := by
  have hstep := effectiveStep_nonneg minSpacing lineStringLength numberOfPoints hL hn
  rw [getLineStringDistancesToCheck_eq_spec]
  unfold specPlannedDistances
  have hmem : ∀ d ∈ (((List.range (numberOfPoints - 1)).map
      fun i : ℕ => effectiveStep minSpacing lineStringLength numberOfPoints * (i : ℚ)).takeWhile
        fun d => decide (d < lineStringLength)), 0 ≤ d ∧ d < lineStringLength := by
    intro d hd
    constructor
    · have hd' : d ∈ (List.range (numberOfPoints - 1)).map
          fun i : ℕ => effectiveStep minSpacing lineStringLength numberOfPoints * (i : ℚ) :=
        List.Sublist.mem hd (List.takeWhile_sublist _)
      obtain ⟨i, _, rfl⟩ := List.mem_map.mp hd'
      exact mul_nonneg hstep (Nat.cast_nonneg i)
    · simpa using List.mem_takeWhile_imp hd
  refine ⟨?_, ?_, List.getLast?_concat _⟩
  · rw [List.Sorted, List.pairwise_append]
    refine ⟨?_, List.pairwise_singleton _ _, ?_⟩
    · apply List.Pairwise.sublist (List.takeWhile_sublist _)
      apply List.Pairwise.map
      · intro a b hab
        exact mul_le_mul_of_nonneg_left (by exact_mod_cast le_of_lt hab) hstep
      · exact List.pairwise_lt_range _
    · intro a ha b hb
      rw [List.mem_singleton] at hb
      subst hb
      exact le_of_lt (hmem a ha).2
  · intro d hd
    rcases List.mem_append.mp hd with h | h
    · exact ⟨(hmem d h).1, le_of_lt (hmem d h).2⟩
    · rw [List.mem_singleton] at h
      subst h
      exact ⟨hL, le_refl _⟩

/-- Witness for C2 at the concrete input `L = 10`, `n = 3`, no minimum. -/
theorem claim2_witness :
    (0 : ℚ) ≤ 10 ∧ 2 ≤ 3
    ∧ ((getLineStringDistancesToCheck none 10 3).Sorted (· ≤ ·)
        ∧ (∀ d ∈ getLineStringDistancesToCheck none 10 3, 0 ≤ d ∧ d ≤ 10)
        ∧ (getLineStringDistancesToCheck none 10 3).getLast? = some 10) :=
  ⟨by norm_num, by norm_num,
    claim2_distances_monotone_bounded none 10 3 (by norm_num) (by norm_num)⟩

/-- C3: the elevation decoder is exactly the linear decoding
`-10000 + (red * 65536 + green * 256 + blue) * 0.1` for all in-range
channels, with the two stated endpoint values, and it is monotonically
non-decreasing in the 24-bit integer formed by the channels. -/
theorem claim3_decoder :
    (∀ red green blue : ℕ, red ≤ 255 → green ≤ 255 → blue ≤ 255 →
      calculateHeightFromPixel (red, green, blue)
        = -10000 + ((red : ℚ) * 65536 + (green : ℚ) * 256 + (blue : ℚ)) * 0.1)
    ∧ calculateHeightFromPixel (0, 0, 0) = -10000
    ∧ calculateHeightFromPixel (255, 255, 255) = 1667721.5
    ∧ (∀ r₁ g₁ b₁ r₂ g₂ b₂ : ℕ,
        r₁ * 65536 + g₁ * 256 + b₁ ≤ r₂ * 65536 + g₂ * 256 + b₂ →
        calculateHeightFromPixel (r₁, g₁, b₁) ≤ calculateHeightFromPixel (r₂, g₂, b₂)) := by
  refine ⟨?_, by norm_num [calculateHeightFromPixel], by norm_num [calculateHeightFromPixel], ?_⟩
  · intro red green blue _ _ _
    unfold calculateHeightFromPixel
    ring
  · intro r₁ g₁ b₁ r₂ g₂ b₂ h
    unfold calculateHeightFromPixel
    have h' : ((r₁ : ℚ)) * 65536 + (g₁ : ℚ) * 256 + (b₁ : ℚ)
        ≤ ((r₂ : ℚ)) * 65536 + (g₂ : ℚ) * 256 + (b₂ : ℚ) := by
      have := (Nat.cast_le (α := ℚ)).mpr h
      push_cast at this
      linarith
    norm_num
    linarith

/-- Witness for C3: the formula and monotonicity applied at concrete
channel triples. -/
theorem claim3_decoder_witness :
    ((1 : ℕ) ≤ 255
    ∧ calculateHeightFromPixel (0, 0, 1)
        = -10000 + ((0 : ℚ) * 65536 + (0 : ℚ) * 256 + (1 : ℚ)) * 0.1)
    ∧ (0 * 65536 + 0 * 256 + 1 ≤ 0 * 65536 + 1 * 256 + 0
    ∧ calculateHeightFromPixel (0, 0, 1) ≤ calculateHeightFromPixel (0, 1, 0)) :=
  ⟨⟨by norm_num, claim3_decoder.1 0 0 1 (by norm_num) (by norm_num) (by norm_num)⟩,
    ⟨by norm_num, claim3_decoder.2.2.2 0 0 1 0 1 0 (by norm_num)⟩⟩

/-- Unfolded characterization of the inclusive bounding-box test. -/
theorem pointIsWithinTile_iff (pointSM tileSM : ℤ × ℤ) :
    pointIsWithinTile pointSM tileSM = true ↔
      (tileSM.1 ≤ pointSM.1 ∧ pointSM.1 ≤ tileSM.1 + 256
        ∧ tileSM.2 ≤ pointSM.2 ∧ pointSM.2 ≤ tileSM.2 + 256) := by
  unfold pointIsWithinTile TILE_SIZE
  simp [and_assoc]

/-- A successful `find?` splits the list at the first element satisfying
the predicate. -/
theorem find?_first_match {α : Type} (p : α → Bool) :
    ∀ (l : List α) (a : α), l.find? p = some a →
      ∃ l₁ l₂, l = l₁ ++ a :: l₂ ∧ p a = true ∧ ∀ b ∈ l₁, p b = false := by
  intro l
  induction l with
  | nil => intro a h; simp [List.find?] at h
  | cons x t ih =>
    intro a h
    rw [List.find?_cons] at h
    cases hx : p x
    · rw [hx] at h
      obtain ⟨l₁, l₂, rfl, hpa, hall⟩ := ih a h
      refine ⟨x :: l₁, l₂, rfl, hpa, ?_⟩
      intro b hb
      rcases List.mem_cons.mp hb with rfl | hb
      · exact hx
      · exact hall b hb
    · rw [hx] at h
      simp only [Option.some.injEq] at h
      subst h
      exact ⟨[], t, rfl, hx, by intro b hb; cases hb⟩

/-- C5: every tile descriptor's pixel origin is `(x * 256, y * 256)` from
its tile index; a point matches a tile exactly when its pixel coordinates
lie within the tile's inclusive 256-pixel bounding box on both axes; and
the tile used is the first matching tile in resolver-returned order. -/
theorem claim5_tile_origin_and_first_match :
    (∀ (ε : Type) (c : Collab ε) (lineString : LineString) (minZoom maxZoom : ℕ),
      ∀ tileObj ∈ (getTileArrayFromLineString c lineString minZoom maxZoom).1,
        tileObj.smCoordinates = (tileObj.coordinates.1 * 256, tileObj.coordinates.2.1 * 256))
    ∧ (∀ pointSM tileSM : ℤ × ℤ,
        pointIsWithinTile pointSM tileSM = true ↔
          (tileSM.1 ≤ pointSM.1 ∧ pointSM.1 ≤ tileSM.1 + 256
            ∧ tileSM.2 ≤ pointSM.2 ∧ pointSM.2 ≤ tileSM.2 + 256))
    ∧ (∀ (tiles : List TileObject) (pointSM : ℤ × ℤ) (t : TileObject),
        (tiles.filter fun tile => pointIsWithinTile pointSM tile.smCoordinates).head? = some t →
        ∃ l₁ l₂, tiles = l₁ ++ t :: l₂
          ∧ pointIsWithinTile pointSM t.smCoordinates = true
          ∧ ∀ t' ∈ l₁, pointIsWithinTile pointSM t'.smCoordinates = false) := by
  refine ⟨?_, pointIsWithinTile_iff, ?_⟩
  · intro ε c lineString minZoom maxZoom tileObj hmem
    unfold getTileArrayFromLineString at hmem
    simp only [List.mem_map] at hmem
    obtain ⟨t, _, rfl⟩ := hmem
    rfl
  · intro tiles pointSM t h
    rw [head?_filter_eq_find?] at h
    exact find?_first_match _ tiles t h

/-- Witness for C5: the first-match decomposition applied to a concrete
one-tile list and a concrete matching point. -/
theorem claim5_witness :
    ∃ l₁ l₂, [tileW] = l₁ ++ tileW :: l₂
      ∧ pointIsWithinTile (5, 7) tileW.smCoordinates = true
      ∧ ∀ t' ∈ l₁, pointIsWithinTile (5, 7) t'.smCoordinates = false :=
  claim5_tile_origin_and_first_match.2.2 [tileW] (5, 7) tileW (by rfl)

/-- C6: for a point matched to a tile, the pixel lookup uses exactly the
offset `point pixel coordinate - matched tile origin` on both axes; that
offset lies in `[0, 256]`, and it is an integer already, so truncating it
to an integer pixel index leaves it unchanged. -/
theorem claim6_local_offset (ε : Type) (tiles : List TileObject) (point : SamplePoint)
    (matchingTile : TileObject) (tileData : PixelGrid)
    (hmatch : (tiles.filter fun tile =>
        pointIsWithinTile point.smCoordinates tile.smCoordinates).head? = some matchingTile)
    (hdata : matchingTile.tileData = some tileData) :
    ((addHeightToPointGeoJSON tiles point : Except (PipelineError ε) ElevatedPoint)
        = .ok { coordinates := point.coordinates
                distanceAlongLine := point.distanceAlongLine
                smCoordinates := point.smCoordinates
                elevation := calculateHeightFromPixel
                  (tileData.get (point.smCoordinates.1 - matchingTile.smCoordinates.1)
                    (point.smCoordinates.2 - matchingTile.smCoordinates.2) 0,
                   tileData.get (point.smCoordinates.1 - matchingTile.smCoordinates.1)
                    (point.smCoordinates.2 - matchingTile.smCoordinates.2) 1,
                   tileData.get (point.smCoordinates.1 - matchingTile.smCoordinates.1)
                    (point.smCoordinates.2 - matchingTile.smCoordinates.2) 2) })
    ∧ (0 ≤ point.smCoordinates.1 - matchingTile.smCoordinates.1
        ∧ point.smCoordinates.1 - matchingTile.smCoordinates.1 ≤ 256)
    ∧ (0 ≤ point.smCoordinates.2 - matchingTile.smCoordinates.2
        ∧ point.smCoordinates.2 - matchingTile.smCoordinates.2 ≤ 256)
    ∧ ⌊((point.smCoordinates.1 - matchingTile.smCoordinates.1 : ℤ) : ℚ)⌋
        = point.smCoordinates.1 - matchingTile.smCoordinates.1
    ∧ ⌊((point.smCoordinates.2 - matchingTile.smCoordinates.2 : ℤ) : ℚ)⌋
        = point.smCoordinates.2 - matchingTile.smCoordinates.2 := by
  have hwithin : pointIsWithinTile point.smCoordinates matchingTile.smCoordinates = true := by
    rw [head?_filter_eq_find?] at hmatch
    have h' := @List.find?_some TileObject
      (fun tile => pointIsWithinTile point.smCoordinates tile.smCoordinates)
      matchingTile tiles hmatch
    simpa using h'
  obtain ⟨h1, h2, h3, h4⟩ := (pointIsWithinTile_iff _ _).mp hwithin
  refine ⟨?_, ⟨by omega, by omega⟩, ⟨by omega, by omega⟩,
    Int.floor_intCast _, Int.floor_intCast _⟩
  unfold addHeightToPointGeoJSON
  rw [head?_filter_eq_find?] at hmatch
  rw [head?_filter_eq_find?, hmatch]
  simp only [hdata]

/-- Witness for C6 at a concrete tile list, point and pixel grid. -/
theorem claim6_local_offset_witness :
    ((addHeightToPointGeoJSON [tileW] pointW : Except (PipelineError Unit) ElevatedPoint)
        = .ok { coordinates := pointW.coordinates
                distanceAlongLine := pointW.distanceAlongLine
                smCoordinates := pointW.smCoordinates
                elevation := calculateHeightFromPixel
                  (gridW.get (pointW.smCoordinates.1 - tileW.smCoordinates.1)
                    (pointW.smCoordinates.2 - tileW.smCoordinates.2) 0,
                   gridW.get (pointW.smCoordinates.1 - tileW.smCoordinates.1)
                    (pointW.smCoordinates.2 - tileW.smCoordinates.2) 1,
                   gridW.get (pointW.smCoordinates.1 - tileW.smCoordinates.1)
                    (pointW.smCoordinates.2 - tileW.smCoordinates.2) 2) })
    ∧ (0 ≤ pointW.smCoordinates.1 - tileW.smCoordinates.1
        ∧ pointW.smCoordinates.1 - tileW.smCoordinates.1 ≤ 256)
    ∧ (0 ≤ pointW.smCoordinates.2 - tileW.smCoordinates.2
        ∧ pointW.smCoordinates.2 - tileW.smCoordinates.2 ≤ 256)
    ∧ ⌊((pointW.smCoordinates.1 - tileW.smCoordinates.1 : ℤ) : ℚ)⌋
        = pointW.smCoordinates.1 - tileW.smCoordinates.1
    ∧ ⌊((pointW.smCoordinates.2 - tileW.smCoordinates.2 : ℤ) : ℚ)⌋
        = pointW.smCoordinates.2 - tileW.smCoordinates.2 :=
  claim6_local_offset Unit [tileW] pointW tileW gridW (by rfl) (by rfl)

/-- C7: under the auto spacing policy the effective minimum spacing, in
meters, is the ceiling of ten times the pixel ground size scaled back to
one-decimal granularity, and the pixel ground size follows the
Web-Mercator ground-resolution formula at the path's first latitude. -/
theorem claim7_auto_spacing (ε : Type) (c : Collab ε) (lineString : LineString)
    (c0 : Coord) (mk : ℚ)
    (hhead : lineString.coords.head? = some c0)
    (hmk : resolveMinKm c lineString none = .ok (some mk)) :
    mk * 1000 = specAutoMinSpacingMeters (getPixelDistanceAtLatitudeInMeters c.cosDeg c0.lat)
    ∧ getPixelDistanceAtLatitudeInMeters c.cosDeg c0.lat
        = 40075016.686 * c.cosDeg c0.lat / 2 ^ (15 + 8) := by
  have hmk' : mk
      = (⌈getPixelDistanceAtLatitudeInMeters c.cosDeg c0.lat * 10⌉ : ℚ) / 10000 := by
    unfold resolveMinKm at hmk
    rw [hhead] at hmk
    simp only [Except.ok.injEq, Option.some.injEq] at hmk
    exact hmk.symm
  constructor
  · rw [hmk']
    unfold specAutoMinSpacingMeters
    ring
  · unfold getPixelDistanceAtLatitudeInMeters ZOOM_LEVEL
    ring

/-- Witness for C7 at a concrete collaborator with cosine `1 / 2`: the
pixel ground size is `20037508343 / 838860800 ≈ 2.389` meters, and the
resolved minimum spacing is `24 / 10000` kilometers, i.e. `2.4` meters. -/
theorem claim7_auto_spacing_witness :
    lineW7.coords.head? = some ⟨0, 60⟩
    ∧ resolveMinKm collabW7 lineW7 none = .ok (some (3 / 1250))
    ∧ ((3 : ℚ) / 1250 * 1000
        = specAutoMinSpacingMeters (getPixelDistanceAtLatitudeInMeters collabW7.cosDeg (Coord.mk 0 60).lat))
    ∧ getPixelDistanceAtLatitudeInMeters collabW7.cosDeg (Coord.mk 0 60).lat
        = 40075016.686 * collabW7.cosDeg (Coord.mk 0 60).lat / 2 ^ (15 + 8) := by
  have hceil : (⌈(20037508343 : ℚ) / 838860800⌉ : ℤ) = 24 := by
    rw [Int.ceil_eq_iff]
    norm_num
  have hmk : resolveMinKm collabW7 lineW7 none = .ok (some (3 / 1250)) := by
    norm_num [resolveMinKm, getPixelDistanceAtLatitudeInMeters, ZOOM_LEVEL, collabW7,
      lineW7, hceil]
  have hmain := claim7_auto_spacing Unit collabW7 lineW7 ⟨0, 60⟩ (3 / 1250) (by rfl) hmk
  exact ⟨rfl, hmk, hmain.1, hmain.2⟩

/-- Model of `Promise.all` over a list whose first rejection is `e`:
it rejects with `e`. -/
theorem promiseAll_append_error {ε α : Type} (e : ε) :
    ∀ (pre post : List (Except ε α)), (∀ r ∈ pre, ∃ g, r = .ok g) →
      promiseAll (pre ++ .error e :: post) = .error e := by
  intro pre
  induction pre with
  | nil => intro post _; rfl
  | cons x t ih =>
    intro post hall
    obtain ⟨g, rfl⟩ := hall x (List.mem_cons_self x t)
    rw [List.cons_append]
    simp only [promiseAll]
    rw [ih post fun r hr => hall r (List.mem_cons_of_mem _ hr)]

/-- A successful `Promise.all` means every promise resolved, and it
returns one value per promise. -/
theorem promiseAll_ok_inv {ε α : Type} :
    ∀ (l : List (Except ε α)) (gs : List α), promiseAll l = .ok gs →
      (∀ r ∈ l, ∃ g, r = .ok g) ∧ gs.length = l.length := by
  intro l
  induction l with
  | nil =>
    intro gs h
    simp only [promiseAll, Except.ok.injEq] at h
    subst h
    refine ⟨?_, rfl⟩
    intro r hr
    cases hr
  | cons x t ih =>
    intro gs h
    simp only [promiseAll] at h
    cases x with
    | error e => cases h
    | ok v =>
      cases hp : promiseAll t with
      | error e => rw [hp] at h; cases h
      | ok vs =>
        rw [hp] at h
        simp only [Except.ok.injEq] at h
        subst h
        obtain ⟨hmem, hlen⟩ := ih vs hp
        refine ⟨?_, by simp [hlen]⟩
        intro r hr
        rcases List.mem_cons.mp hr with rfl | hr
        · exact ⟨v, rfl⟩
        · exact hmem r hr

/-- A successful height-decoding pass yields one elevated point per
sample point. -/
theorem addHeightToPointsGeoJSON_ok_length (ε : Type) (tiles : List TileObject) :
    ∀ (pts : List SamplePoint) (out : List ElevatedPoint),
      (addHeightToPointsGeoJSON tiles pts : Except (PipelineError ε) (List ElevatedPoint))
        = .ok out → out.length = pts.length := by
  intro pts
  induction pts with
  | nil =>
    intro out h
    simp only [addHeightToPointsGeoJSON, Except.ok.injEq] at h
    subst h
    rfl
  | cons q rest ih =>
    intro out h
    simp only [addHeightToPointsGeoJSON] at h
    cases hq : (addHeightToPointGeoJSON tiles q : Except (PipelineError ε) ElevatedPoint) with
    | error e => rw [hq] at h; cases h
    | ok v =>
      rw [hq] at h
      cases hrest : (addHeightToPointsGeoJSON tiles rest
          : Except (PipelineError ε) (List ElevatedPoint)) with
      | error e => rw [hrest] at h; cases h
      | ok vs =>
        rw [hrest] at h
        simp only [Except.ok.injEq] at h
        subst h
        simp [ih vs hrest]

/-- After the resolved fetches have written their grids, every tile of the
zipped list carries tile data. -/
theorem fillTileData_all_some :
    ∀ (tiles : List TileObject) (grids : List PixelGrid),
      ∀ t ∈ fillTileData tiles grids, ∃ g, t.tileData = some g := by
  intro tiles
  induction tiles with
  | nil => intro grids t ht; simp [fillTileData] at ht
  | cons a l ih =>
    intro grids t ht
    cases grids with
    | nil => simp [fillTileData] at ht
    | cons g gs =>
      simp only [fillTileData, List.zipWith_cons_cons] at ht
      rcases List.mem_cons.mp ht with rfl | ht
      · exact ⟨g, rfl⟩
      · exact ih gs t ht

/-- If every tile has data and some sample point matches no tile, the
height-decoding pass fails with the no-matching-tile error. -/
theorem addHeightToPointsGeoJSON_error_of_unmatched (ε : Type) (tiles : List TileObject)
    (hdata : ∀ t ∈ tiles, ∃ g, t.tileData = some g) :
    ∀ pts : List SamplePoint,
      (∃ p ∈ pts, tiles.filter
          (fun tile => pointIsWithinTile p.smCoordinates tile.smCoordinates) = []) →
      (addHeightToPointsGeoJSON tiles pts : Except (PipelineError ε) (List ElevatedPoint))
        = .error .typeErrorNoMatchingTile := by
  intro pts
  induction pts with
  | nil =>
    rintro ⟨p, hp, _⟩
    cases hp
  | cons q rest ih =>
    rintro ⟨p, hp, hfil⟩
    cases hq : (tiles.filter
        fun tile => pointIsWithinTile q.smCoordinates tile.smCoordinates).head? with
    | none =>
      simp only [addHeightToPointsGeoJSON, addHeightToPointGeoJSON, hq]
    | some t =>
      have ht : t ∈ tiles := by
        rw [head?_filter_eq_find?] at hq
        exact List.mem_of_find?_eq_some hq
      obtain ⟨g, hg⟩ := hdata t ht
      have htail : ∃ p ∈ rest, tiles.filter
          (fun tile => pointIsWithinTile p.smCoordinates tile.smCoordinates) = [] := by
        rcases List.mem_cons.mp hp with rfl | hp'
        · rw [hfil] at hq
          cases hq
        · exact ⟨p, hp', hfil⟩
      simp only [addHeightToPointsGeoJSON, addHeightToPointGeoJSON, hq, hg, ih htail]

/-- Resolving the minimum spacing reduces the pipeline to the
post-setup phase on a fresh module state. -/
theorem getLineStringElevationPoints_eq_run (ε : Type) (c : Collab ε)
    (prior : ModuleState ε) (lineString : LineString) (numberOfPoints : ℕ)
    (minMetersBetweenPoints : Option (Option ℚ)) (mk : Option ℚ)
    (hmk : resolveMinKm c lineString minMetersBetweenPoints = .ok mk) :
    getLineStringElevationPoints c prior lineString numberOfPoints minMetersBetweenPoints
      = runAfterMinKm c
          { requiredTilesObjects := [], tilePromises := [], minKmBetweenPoints := mk }
          lineString numberOfPoints := by
  simp only [getLineStringElevationPoints, resetAccumulators, hmk]

/-- When some launched tile fetch settles with a rejection, the post-setup
phase rejects with that fetch error. -/
theorem runAfterMinKm_fetch_error (ε : Type) (c : Collab ε) (st1 : ModuleState ε)
    (lineString : LineString) (numberOfPoints : ℕ) (e : ε)
    (he : promiseAll (st1.tilePromises
        ++ (getTileArrayFromLineString c lineString ZOOM_LEVEL ZOOM_LEVEL).2) = .error e) :
    (runAfterMinKm c st1 lineString numberOfPoints).1 = .error (.fetchError e) := by
  simp only [runAfterMinKm, he]

/-- A successful post-setup phase inverts into a successful `Promise.all`
and a successful height-decoding pass whose formatted result it returns. -/
theorem runAfterMinKm_ok_inv (ε : Type) (c : Collab ε) (st1 : ModuleState ε)
    (lineString : LineString) (numberOfPoints : ℕ) (fc : FeatureCollection)
    (h : (runAfterMinKm c st1 lineString numberOfPoints).1 = .ok fc) :
    ∃ tileDatas pointsWithHeight,
      promiseAll (st1.tilePromises
          ++ (getTileArrayFromLineString c lineString ZOOM_LEVEL ZOOM_LEVEL).2) = .ok tileDatas
      ∧ (addHeightToPointsGeoJSON
            (fillTileData (st1.requiredTilesObjects
              ++ (getTileArrayFromLineString c lineString ZOOM_LEVEL ZOOM_LEVEL).1) tileDatas)
            (addXYZCoordinatesToPointsGeoJSON c
              (getLineStringPoints c st1 lineString numberOfPoints) ZOOM_LEVEL)
          : Except (PipelineError ε) (List ElevatedPoint)) = .ok pointsWithHeight
      ∧ fc = getFormattedPointsResult pointsWithHeight := by
  simp only [runAfterMinKm] at h
  cases hp : promiseAll (st1.tilePromises
      ++ (getTileArrayFromLineString c lineString ZOOM_LEVEL ZOOM_LEVEL).2) with
  | error e =>
    rw [hp] at h
    simp at h
  | ok tds =>
    rw [hp] at h
    dsimp only at h
    cases hh : (addHeightToPointsGeoJSON
        (fillTileData (st1.requiredTilesObjects
          ++ (getTileArrayFromLineString c lineString ZOOM_LEVEL ZOOM_LEVEL).1) tds)
        (addXYZCoordinatesToPointsGeoJSON c
          (getLineStringPoints c st1 lineString numberOfPoints) ZOOM_LEVEL)
        : Except (PipelineError ε) (List ElevatedPoint)) with
    | error e =>
      rw [hh] at h
      simp at h
    | ok out =>
      rw [hh] at h
      simp only [Except.ok.injEq] at h
      exact ⟨tds, out, rfl, hh, h.symm⟩

/-- C4: once the module state is set up, a rejected tile fetch makes the
whole pipeline reject with exactly that fetch error and no output
collection, and a resolved pipeline implies every fetch succeeded and the
output carries one feature per planned sample distance — never a partial
result. -/
theorem claim4_fetch_fail_fast (ε : Type) (c : Collab ε) (prior : ModuleState ε)
    (lineString : LineString) (numberOfPoints : ℕ)
    (minMetersBetweenPoints : Option (Option ℚ)) (mk : Option ℚ)
    (hmk : resolveMinKm c lineString minMetersBetweenPoints = .ok mk) :
    (∀ (e : ε) (pre post : List (Except ε PixelGrid)),
      (getTileArrayFromLineString c lineString ZOOM_LEVEL ZOOM_LEVEL).2
          = pre ++ .error e :: post →
      (∀ r ∈ pre, ∃ g, r = .ok g) →
      (getLineStringElevationPoints c prior lineString numberOfPoints
          minMetersBetweenPoints).1 = .error (.fetchError e))
    ∧ (∀ fc, (getLineStringElevationPoints c prior lineString numberOfPoints
          minMetersBetweenPoints).1 = .ok fc →
        (∀ r ∈ (getTileArrayFromLineString c lineString ZOOM_LEVEL ZOOM_LEVEL).2,
          ∃ g, r = .ok g)
        ∧ fc.features.length
            = (getLineStringDistancesToCheck mk (c.lengthKm lineString)
                numberOfPoints).length) := by
  rw [getLineStringElevationPoints_eq_run ε c prior lineString numberOfPoints
    minMetersBetweenPoints mk hmk]
  constructor
  · intro e pre post hsplit hpre
    apply runAfterMinKm_fetch_error
    dsimp only
    rw [List.nil_append, hsplit]
    exact promiseAll_append_error e pre post hpre
  · intro fc h
    obtain ⟨tds, out, hp, hh, rfl⟩ :=
      runAfterMinKm_ok_inv ε c _ lineString numberOfPoints fc h
    constructor
    · have hmem := (promiseAll_ok_inv _ tds hp).1
      intro r hr
      apply hmem
      dsimp only at hmem ⊢
      rw [List.nil_append]
      exact hr
    · have h1 : out.length = (addXYZCoordinatesToPointsGeoJSON c
          (getLineStringPoints c
            { requiredTilesObjects := [], tilePromises := [], minKmBetweenPoints := mk }
            lineString numberOfPoints) ZOOM_LEVEL).length :=
        addHeightToPointsGeoJSON_ok_length ε _ _ out hh
      simp only [getFormattedPointsResult, addXYZCoordinatesToPointsGeoJSON,
        getLineStringPoints, getPointsToCheck, List.length_map] at h1 ⊢
      exact h1

/-- Witness for C4: with two required tiles whose second fetch rejects
with error code `7`, the pipeline rejects with exactly that fetch error
(even starting from a dirty module state). -/
theorem claim4_fetch_fail_fast_witness :
    (getLineStringElevationPoints collabW4 stateW lineW4 3 (some none)).1
      = .error (.fetchError 7) :=
  (claim4_fetch_fail_fast ℕ collabW4 stateW lineW4 3 (some none) none rfl).1 7
    [.ok gridW] [] rfl
    (by intro r hr; rw [List.mem_singleton] at hr; exact ⟨gridW, hr⟩)

/-- C8: if the minimum spacing resolves, all fetches succeed, and some
sample point's projected pixel coordinates fall within no fetched tile,
the pipeline rejects with the single no-matching-tile error and produces
no output collection. -/
theorem claim8_coverage_mismatch_fatal (ε : Type) (c : Collab ε) (prior : ModuleState ε)
    (lineString : LineString) (numberOfPoints : ℕ)
    (minMetersBetweenPoints : Option (Option ℚ)) (mk : Option ℚ)
    (tileDatas : List PixelGrid)
    (hmk : resolveMinKm c lineString minMetersBetweenPoints = .ok mk)
    (hfetch : promiseAll (getTileArrayFromLineString c lineString ZOOM_LEVEL ZOOM_LEVEL).2
        = .ok tileDatas)
    (hmiss : ∃ p ∈ addXYZCoordinatesToPointsGeoJSON c
        (getPointsToCheck c lineString
          (getLineStringDistancesToCheck mk (c.lengthKm lineString) numberOfPoints))
        ZOOM_LEVEL,
      (fillTileData (getTileArrayFromLineString c lineString ZOOM_LEVEL ZOOM_LEVEL).1
          tileDatas).filter
        (fun tile => pointIsWithinTile p.smCoordinates tile.smCoordinates) = []) :
    (getLineStringElevationPoints c prior lineString numberOfPoints
        minMetersBetweenPoints).1 = .error .typeErrorNoMatchingTile := by
  rw [getLineStringElevationPoints_eq_run ε c prior lineString numberOfPoints
    minMetersBetweenPoints mk hmk]
  simp only [runAfterMinKm, getLineStringPoints]
  rw [List.nil_append, List.nil_append, hfetch]
  dsimp only
  rw [addHeightToPointsGeoJSON_error_of_unmatched ε _
    (fillTileData_all_some _ tileDatas) _ hmiss]

/-- Witness for C8: one fetched tile with pixel origin `(2560, 2560)`,
sample points projected to `(0, 0)`: the pipeline rejects with the
no-matching-tile error. -/
theorem claim8_coverage_mismatch_witness :
    (getLineStringElevationPoints collabW8 stateW lineW4 2 (some none)).1
      = .error .typeErrorNoMatchingTile :=
  claim8_coverage_mismatch_fatal ℕ collabW8 stateW lineW4 2 (some none) none [gridW]
    rfl rfl
    ⟨pointW8,
      by norm_num [addXYZCoordinatesToPointsGeoJSON, getPointsToCheck,
        getLineStringDistancesToCheck, effectiveStep, distancesLoop, collabW8, lineW4,
        pointW8],
      rfl⟩

/-- Counterexample to C9: a degenerate zero-length path with two
identical coordinates is not rejected — with total collaborators the
pipeline resolves with a one-feature output collection, so no
geometry error is surfaced. -/
theorem claim9_counterexample_degenerate_path_output :
    (getLineStringElevationPoints collabW9 stateW9 lineW9 5 (some none)).1
      = .ok ⟨[⟨⟨0, 0⟩, 0, -10000⟩]⟩ := by
  norm_num [getLineStringElevationPoints, resolveMinKm, resetAccumulators, runAfterMinKm,
    getLineStringPoints, getPointsToCheck, getLineStringDistancesToCheck, effectiveStep,
    distancesLoop, getTileArrayFromLineString, addXYZCoordinatesToPointsGeoJSON, promiseAll,
    fillTileData, addHeightToPointsGeoJSON, addHeightToPointGeoJSON, pointIsWithinTile,
    TILE_SIZE, ZOOM_LEVEL, calculateHeightFromPixel, getFormattedPointsResult,
    collabW9, stateW9, lineW9]

/-- C9 as amended: the pipeline performs no geometry validation, so a
degenerate path with coordinates present is processed normally; only a
path whose coordinate list is empty fails, and only under the auto
spacing policy — reading the first coordinate's latitude throws, and that
error is surfaced immediately as the single rejection, before any output,
with no retry. -/
theorem claim9_amended_empty_coords_auto_error (ε : Type) (c : Collab ε)
    (prior : ModuleState ε) (lineString : LineString) (numberOfPoints : ℕ)
    (hempty : lineString.coords = []) :
    (getLineStringElevationPoints c prior lineString numberOfPoints none).1
      = .error .typeErrorNoCoordinates := by
  simp only [getLineStringElevationPoints, resolveMinKm, hempty, List.head?_nil]

/-- Witness for the amended C9 at the concrete empty-coordinate path. -/
theorem claim9_amended_witness :
    (getLineStringElevationPoints collabW9 stateW9 lineEmpty 5 none).1
      = .error .typeErrorNoCoordinates :=
  claim9_amended_empty_coords_auto_error Unit collabW9 stateW9 lineEmpty 5 rfl

/-- C10: every invocation resets the module accumulators and recomputes
the minimum spacing before use, so the settled result never depends on
the module state left behind by an earlier run; in particular two
sequential invocations with equal inputs and equal collaborator
responses settle identically. -/
theorem claim10_run_independent_of_prior_state (ε : Type) (c : Collab ε)
    (s₁ s₂ : ModuleState ε) (lineString : LineString) (numberOfPoints : ℕ)
    (minMetersBetweenPoints : Option (Option ℚ)) :
    ((getLineStringElevationPoints c s₁ lineString numberOfPoints minMetersBetweenPoints).1
      = (getLineStringElevationPoints c s₂ lineString numberOfPoints minMetersBetweenPoints).1)
    ∧ ((getLineStringElevationPoints c
          (getLineStringElevationPoints c s₁ lineString numberOfPoints
            minMetersBetweenPoints).2
          lineString numberOfPoints minMetersBetweenPoints).1
        = (getLineStringElevationPoints c s₁ lineString numberOfPoints
            minMetersBetweenPoints).1) := by
  have key : ∀ s : ModuleState ε,
      (getLineStringElevationPoints c s lineString numberOfPoints minMetersBetweenPoints).1
        = match resolveMinKm c lineString minMetersBetweenPoints with
          | .error e => .error e
          | .ok mk => (runAfterMinKm c
              { requiredTilesObjects := [], tilePromises := [], minKmBetweenPoints := mk }
              lineString numberOfPoints).1 := by
    intro s
    simp only [getLineStringElevationPoints, resetAccumulators]
    cases resolveMinKm c lineString minMetersBetweenPoints <;> rfl
  exact ⟨by rw [key, key], by rw [key, key]⟩
